import Mathlib

set_option linter.unusedVariables false

/-!
Shallow embedding of the cloud-api-adaptor test harness and provisioner CLI.

The Go sources embedded here:
* `src/test/e2e/common.go` — fixture builders (`newPod`, `newBuilderPod`,
  `newUserPod`, pod options, `newConfigMap`, `newSecret`).
* `src/test/e2e/common_suite_test.go` — the job-aware `testCase` harness
  (`testCase.run` with its WithSetup / Assess / Teardown phases).
* `src/cmd/cluster-provisioner/main.go` — the CLI action dispatch.

Cluster interactions are modelled by environments that fix the result of
every external call (create/delete/list/exec/wait), and each phase of the
harness is a pure function from the test case and such an environment to
the list of performed operations (a trace) plus its outcome.
-/

namespace CloudAPIAdaptor

/-! ## Kubernetes object descriptions (the fields the fixtures set) -/

structure ObjectMeta where
  name : String
  ns : String
  labels : List (String × String) := []
deriving DecidableEq, Repr

structure VolumeMount where
  name : String
  mountPath : String
deriving DecidableEq, Repr

/-- A volume as constructed by the fixtures: a name plus the name of the
config map or secret it references (`none` for other sources). -/
structure Volume where
  name : String
  configMapName : Option String := none
  secretName : Option String := none
deriving DecidableEq, Repr

structure Container where
  name : String
  image : String
  command : List String := []
  args : List String := []
  volumeMounts : List VolumeMount := []
  env : List (String × String) := []
deriving DecidableEq, Repr

structure PodSpec where
  containers : List Container := []
  runtimeClassName : Option String := none
  restartPolicy : String := ""
  dnsPolicy : String := ""
  volumes : List Volume := []
deriving DecidableEq, Repr

structure Pod where
  metadata : ObjectMeta
  spec : PodSpec := {}
deriving DecidableEq, Repr

structure ConfigMap where
  metadata : ObjectMeta
  data : List (String × String) := []
deriving DecidableEq, Repr

structure Secret where
  metadata : ObjectMeta
  data : List (String × String) := []
deriving DecidableEq, Repr

structure Job where
  metadata : ObjectMeta
deriving DecidableEq, Repr

/-! ## Fixture builders (src/test/e2e/common.go) -/

def PodOption := Pod → Pod

/-- `p.Spec.Containers[0]` updates used by the pod options.  The Go code
indexes position 0 unconditionally (it would panic on an empty slice);
every fixture pod has exactly one container, so `List.modifyHead` is the
faithful total rendering. -/
def modifyFirstContainer (f : Container → Container) (p : Pod) : Pod :=
  { p with spec := { p.spec with containers := p.spec.containers.modifyHead f } }

def withRestartPolicy (restartPolicy : String) : PodOption :=
  fun p => { p with spec := { p.spec with restartPolicy := restartPolicy } }

def withCommand (command : List String) : PodOption :=
  fun p => modifyFirstContainer (fun c => { c with command := command }) p

def withConfigMapBinding (mountPath : String) (configMapName : String) : PodOption :=
  fun p =>
    let p := modifyFirstContainer
      (fun c => { c with volumeMounts :=
        c.volumeMounts ++ [{ name := "config-volume", mountPath := mountPath }] }) p
    { p with spec := { p.spec with volumes :=
        p.spec.volumes ++ [{ name := "config-volume", configMapName := some configMapName }] } }

def withSecretBinding (mountPath : String) (secretName : String) : PodOption :=
  fun p =>
    let p := modifyFirstContainer
      (fun c => { c with volumeMounts :=
        c.volumeMounts ++ [{ name := "secret-volume", mountPath := mountPath }] }) p
    { p with spec := { p.spec with volumes :=
        p.spec.volumes ++ [{ name := "secret-volume", secretName := some secretName }] } }

def newPod (ns podName containerName imageName : String)
    (options : List PodOption) : Pod :=
  let runtimeClassName := "kata-remote"
  let pod : Pod :=
    { metadata := { name := podName, ns := ns },
      spec := { containers := [{ name := containerName, image := imageName }],
                runtimeClassName := some runtimeClassName } }
  options.foldl (fun p option => option p) pod

def newNginxPod (ns : String) : Pod :=
  newPod ns "nginx" "nginx" "nginx" [withRestartPolicy "Never"]

def newBusyboxPod (ns : String) : Pod :=
  newPod ns "busybox-pod" "busybox" "quay.io/prometheus/busybox:latest"
    [withCommand ["/bin/sh", "-c", "sleep 3600"]]

def newNginxPodWithConfigMap (ns configMapName : String) : Pod :=
  newPod ns "nginx-configmap-pod" "nginx-configmap" "nginx"
    [withRestartPolicy "Never", withConfigMapBinding "/etc/config" configMapName]

def newNginxPodWithSecret (ns secretName : String) : Pod :=
  newPod ns "nginx-secret-pod" "nginx-secret" "nginx"
    [withRestartPolicy "Never", withSecretBinding "/etc/secret" secretName]

def newConfigMap (ns name : String) (configMapData : List (String × String)) : ConfigMap :=
  { metadata := { name := name, ns := ns }, data := configMapData }

def newSecret (ns name : String) (data : List (String × String)) : Secret :=
  { metadata := { name := name, ns := ns }, data := data }

/-- `newBuilderPod` from common.go.  Note: the Go function receives
`containerName` and `runtimeclass` parameters but uses neither — the
container is named after the pod and no `RuntimeClassName` is set. -/
def newBuilderPod (ns name containerName runtimeclass configmapname clusterIP : String) : Pod :=
  { metadata := { name := name, ns := ns },
    spec := { containers := [{
                name := name,
                image := "gcr.io/kaniko-project/executor:latest",
                args := ["--custom-platform=linux/amd64",
                         "--dockerfile=/build-context/Dockerfile",
                         "--context=dir:///build-context",
                         "--destination=" ++ clusterIP ++ ":5000/user-image:latest"],
                volumeMounts := [{ name := configmapname, mountPath := "/" ++ configmapname }],
                env := [("DOCKER_CONFIG", "/kaniko/.docker/"), ("DOCKER_CONTENT_TRUST", "1")] }],
              volumes := [{ name := configmapname, configMapName := some configmapname }],
              restartPolicy := "Never" } }

def newUserPod (ns name containerName runtimeclass clusterIP : String) : Pod :=
  { metadata := { name := name, ns := ns },
    spec := { containers := [{
                name := containerName,
                image := clusterIP ++ ":5000/user-image:latest" }],
              dnsPolicy := "ClusterFirst",
              restartPolicy := "Never",
              runtimeClassName := some runtimeclass } }

/-- The concrete pod options defined in common.go, as data, so that
"newPod under any of the defined options" can be quantified over. -/
inductive FixtureOption where
  | restart (restartPolicy : String)
  | cmd (command : List String)
  | cmBind (mountPath name : String)
  | secBind (mountPath name : String)

def FixtureOption.toPodOption : FixtureOption → PodOption
  | .restart rp => withRestartPolicy rp
  | .cmd c => withCommand c
  | .cmBind mp n => withConfigMapBinding mp n
  | .secBind mp n => withSecretBinding mp n

lemma toPodOption_preserves_runtimeClassName (o : FixtureOption) (p : Pod) :
    (o.toPodOption p).spec.runtimeClassName = p.spec.runtimeClassName := by
  cases o <;>
    simp [FixtureOption.toPodOption, withRestartPolicy, withCommand,
      withConfigMapBinding, withSecretBinding, modifyFirstContainer]

lemma foldl_options_runtimeClassName (opts : List FixtureOption) (p : Pod) :
    ((opts.map FixtureOption.toPodOption).foldl (fun q option => option q) p).spec.runtimeClassName
      = p.spec.runtimeClassName := by
  induction opts generalizing p with
  | nil => rfl
  | cons o rest ih =>
      simpa [toPodOption_preserves_runtimeClassName o p] using ih (o.toPodOption p)

/-! ## The test-case harness (src/test/e2e/common_suite_test.go)

`testCommand` / `testCase` and the builder helpers, then `testCase.run`
decomposed into its three feature phases.  The `*testing.T` handle and the
`CloudAssert` implementation are runtime objects; the result of the
external `HasPodVM` assertion is part of the assessment environment. -/

structure TestCommand where
  command : List String
  testCommandStdoutFn : String → Bool
  containerName : String

structure TestCase where
  assessMessage : String
  pod : Pod
  configMap : Option ConfigMap := none
  secret : Option Secret := none
  job : Option Job := none
  testCommands : List TestCommand := []

def withConfigMap (tc : TestCase) (configMap : ConfigMap) : TestCase :=
  { tc with configMap := some configMap }

def withSecret (tc : TestCase) (secret : Secret) : TestCase :=
  { tc with secret := some secret }

def withJob (tc : TestCase) (job : Job) : TestCase :=
  { tc with job := some job }

def withTestCommands (tc : TestCase) (testCommands : List TestCommand) : TestCase :=
  { tc with testCommands := testCommands }

def newTestCase (assessMessage : String) (pod : Pod) : TestCase :=
  { assessMessage := assessMessage, pod := pod }

def newTestCasewithJob (assessMessage : String) (job : Job) : TestCase :=
  { assessMessage := assessMessage,
    job := some job,
    pod := { metadata := { name := job.metadata.name, ns := job.metadata.ns } } }

/-- `WAIT_POD_RUNNING_TIMEOUT = time.Second * 300`, in seconds. -/
def WAIT_POD_RUNNING_TIMEOUT : Nat := 300

/-- One operation performed by the harness against the cluster (or the
test log).  Wait events record the timeout they were issued with, in
seconds. -/
inductive Event where
  | createConfigMap (name : String)
  | createSecret (name : String)
  | createJob (name : String)
  | createPod (name : String)
  | waitJobCompleted (timeoutSec : Nat)
  | waitPodRunning (timeoutSec : Nat)
  | logError
  | hasPodVM (name : String)
  | execCmd (cmdIdx : Nat) (ns podName containerName : String) (argv : List String)
  | deletePod (name : String)
  | deleteConfigMap (name : String)
  | deleteSecret (name : String)
  | deleteJob (name : String)
  | deleteJobPod (name : String)
deriving DecidableEq, Repr

/-- A pod returned by the namespace `List` call, reduced to the fields the
harness reads: its name, its labels (in particular `job-name`), the
termination reason of its first container status
(`Status.ContainerStatuses[0].State.Terminated.Reason`; the Go code reads
it unconditionally, so listed pods are assumed terminated in the job
branch), and its log as later fetched through the event-watch. -/
structure PodInfo where
  name : String
  labels : List (String × String) := []
  terminatedReason : String := ""
  log : String := ""
deriving DecidableEq, Repr

def lookupLabel (labels : List (String × String)) (key : String) : Option String :=
  (labels.find? (fun p => p.1 == key)).map Prod.snd

/-- Results of the external calls made by `WithSetup`. -/
structure SetupEnv where
  newClientErr : Bool := false
  createConfigMapErr : Bool := false
  createSecretErr : Bool := false
  createJobErr : Bool := false
  createPodErr : Bool := false
  jobWaitErr : Bool := false
  podWaitErr : Bool := false

/-- Results of the external calls made by `Assess`.  `execRes k` is the
outcome of `ExecInPod` for the `k`-th test command (the call's arguments —
namespace, pod name, container, argv — are the same for every matching
list item, so the result is keyed on the command): `none` is an execution
error, `some out` is the captured stdout. -/
structure AssessEnv where
  listErr : Bool := false
  hasPodVMOk : Bool := true
  podItems : List PodInfo := []
  execRes : Nat → Option String := fun _ => none

/-- Results of the external calls made by `Teardown`. -/
structure TeardownEnv where
  listErr : Bool := false
  newClientErr : Bool := false
  podItems : List PodInfo := []
  deletePodErr : Bool := false
  deleteConfigMapErr : Bool := false
  deleteSecretErr : Bool := false
  deleteJobErr : Bool := false
  deleteJobPodErr : String → Bool := fun _ => false

structure Env where
  setup : SetupEnv := {}
  assess : AssessEnv := {}
  teardown : TeardownEnv := {}

inductive Outcome where
  | passed
  | failed
  | skipped
deriving DecidableEq, Repr

/-- The `WithSetup` closure of `testCase.run`: create config map / secret /
job / pod as present, then wait.  Returns the operations performed and
whether `t.Fatal` was hit.  A job-completion wait error is only logged
(`t.Log`), a pod-running wait error is fatal. -/
def setupPhase (tc : TestCase) (env : SetupEnv) : List Event × Bool :=
  if env.newClientErr then ([], true)
  else
    let e1 : List Event :=
      match tc.configMap with
      | some cm => [Event.createConfigMap cm.metadata.name]
      | none => []
    if tc.configMap.isSome && env.createConfigMapErr then (e1, true)
    else
      let e2 := e1 ++ (match tc.secret with
        | some s => [Event.createSecret s.metadata.name]
        | none => [])
      if tc.secret.isSome && env.createSecretErr then (e2, true)
      else
        let e3 := e2 ++ (match tc.job with
          | some j => [Event.createJob j.metadata.name]
          | none => [])
        if tc.job.isSome && env.createJobErr then (e3, true)
        else
          let e4 := e3 ++ (if tc.job.isNone then [Event.createPod tc.pod.metadata.name] else [])
          if tc.job.isNone && env.createPodErr then (e4, true)
          else
            let e5 := e4 ++ (if tc.job.isSome then
                (if env.jobWaitErr then
                  [Event.waitJobCompleted WAIT_POD_RUNNING_TIMEOUT, Event.logError]
                 else [Event.waitJobCompleted WAIT_POD_RUNNING_TIMEOUT])
              else [])
            let e6 := e5 ++ (if tc.job.isNone then [Event.waitPodRunning WAIT_POD_RUNNING_TIMEOUT] else [])
            if tc.job.isNone && env.podWaitErr then (e6, true)
            else (e6, false)

/-- The inner loop of the non-job `Assess` branch for one test command:
iterate the listed pods; on a name match, `ExecInPod` (an error logs
stderr and is fatal), append stdout to the command's buffer and apply the
verification predicate (returning `false` is fatal).  Returns the
operations and whether the command loop may continue. -/
def execOnItems (ns podName : String) (cmdIdx : Nat) (c : TestCommand)
    (res : Option String) : List PodInfo → String → List Event × Bool
  | [], _ => ([], true)
  | i :: rest, buf =>
      if i.name == podName then
        match res with
        | none => ([Event.execCmd cmdIdx ns podName c.containerName c.command, Event.logError], false)
        | some out =>
            let buf2 := buf ++ out
            if c.testCommandStdoutFn buf2 then
              let r := execOnItems ns podName cmdIdx c res rest buf2
              (Event.execCmd cmdIdx ns podName c.containerName c.command :: r.1, r.2)
            else
              ([Event.execCmd cmdIdx ns podName c.containerName c.command], false)
      else execOnItems ns podName cmdIdx c res rest buf

/-- The outer loop over `tc.testCommands` (indexed from `cmdIdx`); a fatal
result from a command stops the loop. -/
def cmdLoop (ns podName : String) (items : List PodInfo) (env : AssessEnv) :
    Nat → List TestCommand → List Event × Bool
  | _, [] => ([], true)
  | cmdIdx, c :: rest =>
      let r := execOnItems ns podName cmdIdx c (env.execRes cmdIdx) items ""
      if r.2 then
        let r2 := cmdLoop ns podName items env (cmdIdx + 1) rest
        (r.1 ++ r2.1, r2.2)
      else (r.1, false)

def isJobError (jobName : String) (i : PodInfo) : Bool :=
  lookupLabel i.labels "job-name" == some jobName && i.terminatedReason == "StartError"

def isJobSuccess (jobName : String) (i : PodInfo) : Bool :=
  lookupLabel i.labels "job-name" == some jobName && i.terminatedReason == "Completed"

/-- `podlogstring` after the job branch's loop: for each completed job pod
the code (via the event watch, abstracted here) streams that pod's log and
keeps its trimmed contents. -/
def jobLogString (jobName : String) (items : List PodInfo) : String :=
  items.foldl (fun acc i => if isJobSuccess jobName i then i.log.trim else acc) ""

/-- Whether `podlogstring` contains the substring `"3.14"`
(`strings.Contains`). -/
def logHasPi (s : String) : Prop := "3.14".toList <:+: s.toList

instance (s : String) : Decidable (logHasPi s) :=
  inferInstanceAs (Decidable ("3.14".toList <:+: s.toList))

/-- The job branch of `Assess`: count `StartError` and `Completed` pods of
the job, collect the completed pod's log, then
1. `t.Errorf` if every listed pod is an errored job pod and none completed,
2. `t.Skip` if exactly one completed while at least one errored,
3. `t.Errorf` if the collected log does not contain `"3.14"`.
`t.Errorf` marks the assessment failed but continues; `t.Skip` stops it
(the two guard conditions are mutually exclusive, and a skip after a prior
`Errorf` would still count as failed). -/
def jobAssess (jobName : String) (items : List PodInfo) : Outcome :=
  let errorpod := (items.filter (isJobError jobName)).length
  let successpod := (items.filter (isJobSuccess jobName)).length
  let podlogstring := jobLogString jobName items
  let failedFirst := errorpod = items.length ∧ successpod = 0
  if successpod = 1 ∧ 1 ≤ errorpod then
    (if failedFirst then Outcome.failed else Outcome.skipped)
  else
    if failedFirst then Outcome.failed
    else if logHasPi podlogstring then Outcome.passed
    else Outcome.failed

/-- The `Assess` closure of `testCase.run`: list the namespace pods (a list
error is fatal), then either the non-job branch (`HasPodVM` assertion and
the command loop) or the job branch. -/
def assessPhase (tc : TestCase) (env : AssessEnv) : List Event × Outcome :=
  if env.listErr then ([], Outcome.failed)
  else
    match tc.job with
    | none =>
        if env.hasPodVMOk then
          let r := cmdLoop tc.pod.metadata.ns tc.pod.metadata.name env.podItems env 0 tc.testCommands
          (Event.hasPodVM tc.pod.metadata.name :: r.1,
           if r.2 then Outcome.passed else Outcome.failed)
        else ([Event.hasPodVM tc.pod.metadata.name], Outcome.failed)
    | some j => ([], jobAssess j.metadata.name env.podItems)

/-- `Teardown`'s deletion of every listed pod labelled with the job's
name. -/
def deleteJobPods (jobName : String) (errFn : String → Bool) :
    List PodInfo → List Event × Bool
  | [] => ([], false)
  | i :: rest =>
      if lookupLabel i.labels "job-name" == some jobName then
        if errFn i.name then ([Event.deleteJobPod i.name], true)
        else
          let r := deleteJobPods jobName errFn rest
          (Event.deleteJobPod i.name :: r.1, r.2)
      else deleteJobPods jobName errFn rest

/-- The `Teardown` closure of `testCase.run`: list pods, get a client, then
delete the pod (non-job case), the config map and the secret when present,
and the job plus its labelled pods (job case).  Any error is fatal. -/
def teardownPhase (tc : TestCase) (env : TeardownEnv) : List Event × Bool :=
  if env.listErr then ([], true)
  else if env.newClientErr then ([], true)
  else
    let e1 : List Event := if tc.job.isNone then [Event.deletePod tc.pod.metadata.name] else []
    if tc.job.isNone && env.deletePodErr then (e1, true)
    else
      let e2 := e1 ++ (match tc.configMap with
        | some cm => [Event.deleteConfigMap cm.metadata.name]
        | none => [])
      if tc.configMap.isSome && env.deleteConfigMapErr then (e2, true)
      else
        let e3 := e2 ++ (match tc.secret with
          | some s => [Event.deleteSecret s.metadata.name]
          | none => [])
        if tc.secret.isSome && env.deleteSecretErr then (e3, true)
        else
          match tc.job with
          | none => (e3, false)
          | some j =>
              let e4 := e3 ++ [Event.deleteJob j.metadata.name]
              if env.deleteJobErr then (e4, true)
              else
                let r := deleteJobPods j.metadata.name env.deleteJobPodErr env.podItems
                (e4 ++ r.1, r.2)

/-- One execution of the feature built by `testCase.run` under the
e2e-framework: the setup closures run first (a fatal there aborts the
whole feature before the assessments and teardowns), each assessment runs
as a subtest (so its failure or skip does not prevent teardown), and the
teardown closures always run afterwards. -/
def runFeature (tc : TestCase) (env : Env) : List Event × Outcome :=
  let s := setupPhase tc env.setup
  if s.2 then (s.1, Outcome.failed)
  else
    let a := assessPhase tc env.assess
    let d := teardownPhase tc env.teardown
    (s.1 ++ a.1 ++ d.1, if d.2 then Outcome.failed else a.2)

/-! ## The cluster-provisioner CLI (src/cmd/cluster-provisioner/main.go)

`main` reads `CLOUD_PROVIDER`, `TEST_E2E_PROVISION_FILE` and
`TEST_E2E_PODVM_IMAGE`, obtains a provisioner, parses `-action`, then runs
the matching action's fixed call sequence, exiting with code 1 at the
first error.  Every external call's result is fixed by `CliEnv`. -/

inductive ProvCall where
  | createVPC
  | createCluster
  | statImage
  | uploadPodvm
  | newAdaptor
  | getProperties
  | deploy
  | deleteCluster
  | deleteVPC
deriving DecidableEq, Repr

structure CliEnv where
  cloudProvider : String := ""
  provisionPropsFile : String := ""
  podvmImage : String := ""
  getProvisionerErr : Bool := false
  createVPCErr : Bool := false
  createClusterErr : Bool := false
  imageNotExist : Bool := false
  uploadErr : Bool := false
  newAdaptorErr : Bool := false
  deployErr : Bool := false
  deleteClusterErr : Bool := false
  deleteVPCErr : Bool := false

/-- The `action == "provision"` block: CreateVPC, CreateCluster, then (only
when `TEST_E2E_PODVM_IMAGE` is non-empty) `os.Stat` of the image and
UploadPodvm, then NewCloudAPIAdaptor and Deploy (whose argument evaluates
`GetProperties` on the provisioner).  Returns the calls made and whether
`os.Exit(1)` was reached. -/
def provisionBranch (env : CliEnv) : List ProvCall × Bool :=
  let t1 := [ProvCall.createVPC]
  if env.createVPCErr then (t1, true)
  else
    let t2 := t1 ++ [ProvCall.createCluster]
    if env.createClusterErr then (t2, true)
    else
      let t3 := t2 ++ (if env.podvmImage != "" then [ProvCall.statImage] else [])
      if env.podvmImage != "" && env.imageNotExist then (t3, true)
      else
        let t4 := t3 ++ (if env.podvmImage != "" then [ProvCall.uploadPodvm] else [])
        if env.podvmImage != "" && env.uploadErr then (t4, true)
        else
          let t5 := t4 ++ [ProvCall.newAdaptor]
          if env.newAdaptorErr then (t5, true)
          else
            let t6 := t5 ++ [ProvCall.getProperties, ProvCall.deploy]
            if env.deployErr then (t6, true) else (t6, false)

/-- The `action == "deprovision"` block: DeleteCluster then DeleteVPC. -/
def deprovisionBranch (env : CliEnv) : List ProvCall × Bool :=
  let t1 := [ProvCall.deleteCluster]
  if env.deleteClusterErr then (t1, true)
  else
    let t2 := t1 ++ [ProvCall.deleteVPC]
    if env.deleteVPCErr then (t2, true) else (t2, false)

/-- The `action == "uploadimage"` block: `os.Stat` of the image then
UploadPodvm.  (The Go code stats `podvmImage` here even when the variable
is empty; `os.Stat("")` yields a not-exist error, which `imageNotExist`
covers.) -/
def uploadimageBranch (env : CliEnv) : List ProvCall × Bool :=
  let t1 := [ProvCall.statImage]
  if env.imageNotExist then (t1, true)
  else
    let t2 := t1 ++ [ProvCall.uploadPodvm]
    if env.uploadErr then (t2, true) else (t2, false)

/-- `main`: provisioner lookup (an error exits with 1 before any action),
then the three mutually exclusive action blocks in sequence; a `main` that
falls through every block returns normally, which is process exit 0. -/
def mainRun (env : CliEnv) (action : String) : List ProvCall × Nat :=
  if env.getProvisionerErr then ([], 1)
  else if action == "provision" then
    let r := provisionBranch env
    (r.1, if r.2 then 1 else 0)
  else if action == "deprovision" then
    let r := deprovisionBranch env
    (r.1, if r.2 then 1 else 0)
  else if action == "uploadimage" then
    let r := uploadimageBranch env
    (r.1, if r.2 then 1 else 0)
  else ([], 0)

/-- The four provisioner-method calls named by the provision/teardown
sequence of the spec (network, cluster, image upload, adaptor deploy). -/
def isCoreCall : ProvCall → Bool
  | .createVPC => true
  | .createCluster => true
  | .uploadPodvm => true
  | .deploy => true
  | _ => false

/-! ## Claims about the CLI -/

/-- C8: for the `provision` action the provisioner methods run in the
fixed order create network (VPC), create cluster, then — only when the
image path environment variable is non-empty — upload the VM image, then
deploy the adaptor; for `deprovision` the order is delete cluster then
delete network.  Stated on an error-free environment: the trace of the
four named calls is exactly that sequence (the full trace additionally
interleaves the image `stat`, the adaptor construction and the
`GetProperties` argument evaluation, in the same order as the source). -/
theorem cli_action_call_order (cp ppf img : String) :
    ((mainRun { cloudProvider := cp, provisionPropsFile := ppf, podvmImage := img }
        "provision").1.filter isCoreCall
      = [ProvCall.createVPC, ProvCall.createCluster]
        ++ (if img != "" then [ProvCall.uploadPodvm] else []) ++ [ProvCall.deploy])
    ∧ (mainRun { cloudProvider := cp, provisionPropsFile := ppf, podvmImage := img }
        "deprovision").1
      = [ProvCall.deleteCluster, ProvCall.deleteVPC] := by
  constructor
  · by_cases h : img = "" <;>
      simp [mainRun, provisionBranch, isCoreCall, h]
  · simp [mainRun, deprovisionBranch]

/-- C9: every failure mode of the selected action exits with code 1, and
the trace stops at the failing call — no later provisioner method is
invoked.  One conjunct per failure point, each giving the exact truncated
trace. -/
theorem cli_failure_exits_one (cp ppf img act : String) :
    (mainRun { podvmImage := img, getProvisionerErr := true } act = ([], 1))
    ∧ (mainRun { podvmImage := img, createVPCErr := true } "provision"
        = ([ProvCall.createVPC], 1))
    ∧ (mainRun { podvmImage := img, createClusterErr := true } "provision"
        = ([ProvCall.createVPC, ProvCall.createCluster], 1))
    ∧ (img ≠ "" →
        mainRun { podvmImage := img, imageNotExist := true } "provision"
          = ([ProvCall.createVPC, ProvCall.createCluster, ProvCall.statImage], 1))
    ∧ (img ≠ "" →
        mainRun { podvmImage := img, uploadErr := true } "provision"
          = ([ProvCall.createVPC, ProvCall.createCluster, ProvCall.statImage,
              ProvCall.uploadPodvm], 1))
    ∧ (mainRun { podvmImage := "", newAdaptorErr := true } "provision"
        = ([ProvCall.createVPC, ProvCall.createCluster, ProvCall.newAdaptor], 1))
    ∧ (mainRun { podvmImage := "", deployErr := true } "provision"
        = ([ProvCall.createVPC, ProvCall.createCluster, ProvCall.newAdaptor,
            ProvCall.getProperties, ProvCall.deploy], 1))
    ∧ (mainRun { podvmImage := img, deleteClusterErr := true } "deprovision"
        = ([ProvCall.deleteCluster], 1))
    ∧ (mainRun { podvmImage := img, deleteVPCErr := true } "deprovision"
        = ([ProvCall.deleteCluster, ProvCall.deleteVPC], 1))
    ∧ (mainRun { podvmImage := img, imageNotExist := true } "uploadimage"
        = ([ProvCall.statImage], 1))
    ∧ (mainRun { podvmImage := img, uploadErr := true } "uploadimage"
        = ([ProvCall.statImage, ProvCall.uploadPodvm], 1)) := by
  refine ⟨by simp [mainRun], ?_, ?_, ?_, ?_, ?_, ?_, ?_, ?_, ?_, ?_⟩ <;>
    first
      | (intro h; simp [mainRun, provisionBranch, uploadimageBranch, h])
      | simp [mainRun, provisionBranch, deprovisionBranch, uploadimageBranch]

/-- C9 witness: the failure conjuncts instantiated at a concrete image
path, with the non-empty-image hypotheses discharged. -/
theorem cli_failure_exits_one_witness :
    (mainRun { podvmImage := "img.qcow2", getProvisionerErr := true } "provision" = ([], 1))
    ∧ (mainRun { podvmImage := "img.qcow2", imageNotExist := true } "provision"
        = ([ProvCall.createVPC, ProvCall.createCluster, ProvCall.statImage], 1))
    ∧ (mainRun { podvmImage := "img.qcow2", uploadErr := true } "provision"
        = ([ProvCall.createVPC, ProvCall.createCluster, ProvCall.statImage,
            ProvCall.uploadPodvm], 1)) := by
  have h := cli_failure_exits_one "ibmcloud" "provision.properties" "img.qcow2" "provision"
  exact ⟨h.1, h.2.2.2.1 (by decide), h.2.2.2.2.1 (by decide)⟩

/-- C10: with the provisioner constructed successfully, an `-action` value
other than the three recognized ones makes `main` fall through every
action block: no provisioner method is called and the process exits 0,
reporting no error. -/
theorem cli_unknown_action_noop (env : CliEnv) (act : String)
    (h1 : env.getProvisionerErr = false)
    (h2 : act ≠ "provision") (h3 : act ≠ "deprovision") (h4 : act ≠ "uploadimage") :
    mainRun env act = ([], 0) := by
  simp [mainRun, h1, h2, h3, h4]

/-- C10 witness: a concrete unrecognized action. -/
theorem cli_unknown_action_noop_witness :
    mainRun { podvmImage := "img.qcow2" } "destroy" = ([], 0) :=
  cli_unknown_action_noop { podvmImage := "img.qcow2" } "destroy" rfl
    (by decide) (by decide) (by decide)

/-! ## Claims about the fixture builders -/

/-- C7 counterexample: the claim that `newPod`, `newBuilderPod` and
`newUserPod` all set the same fixed runtime class is false at the
arguments `doTestCreatePodWithUser` actually uses — `newBuilderPod`
leaves the runtime class unset even when handed `"kata-remote"`, while
`newPod` sets `some "kata-remote"`. -/
theorem runtimeClass_not_uniform :
    ¬ ((newBuilderPod "default" "builder-pod" "kaniko" "kata-remote"
          "build-context" "10.0.0.1").spec.runtimeClassName
        = (newPod "default" "nginx" "nginx" "nginx" []).spec.runtimeClassName) := by
  decide

/-- C7 amended: `newPod` sets the fixed runtime class `"kata-remote"` for
all parameters, and every pod option defined in common.go preserves it;
`newUserPod` sets exactly the runtime class passed as its parameter; and
`newBuilderPod` sets no runtime class at all (its `runtimeclass` parameter
is unused). -/
theorem runtimeClass_per_builder (ns podName containerName imageName : String)
    (opts : List FixtureOption)
    (ns2 n2 c2 rc2 ip2 ns3 n3 c3 rc3 cm3 ip3 : String) :
    (newPod ns podName containerName imageName
        (opts.map FixtureOption.toPodOption)).spec.runtimeClassName = some "kata-remote"
    ∧ (newUserPod ns2 n2 c2 rc2 ip2).spec.runtimeClassName = some rc2
    ∧ (newBuilderPod ns3 n3 c3 rc3 cm3 ip3).spec.runtimeClassName = none := by
  refine ⟨?_, rfl, rfl⟩
  unfold newPod
  rw [foldl_options_runtimeClassName]

/-! ## Claims about the harness: job-branch assessment (C1) -/

lemma isJobSuccess_false_of_startError (jobName : String) (i : PodInfo)
    (h : i.terminatedReason = "StartError") : isJobSuccess jobName i = false := by
  simp [isJobSuccess, h]

lemma jobLogString_of_no_success (jobName : String) (items : List PodInfo)
    (h : ∀ i ∈ items, isJobSuccess jobName i = false) :
    jobLogString jobName items = "" := by
  unfold jobLogString
  have key : ∀ acc : String,
      items.foldl (fun acc i => if isJobSuccess jobName i then i.log.trim else acc) acc = acc := by
    induction items with
    | nil => intro acc; rfl
    | cons i rest ih =>
        intro acc
        have hi : isJobSuccess jobName i = false := h i (by simp)
        simp only [List.foldl_cons, hi, Bool.false_eq_true, if_false]
        exact ih (fun x hx => h x (by simp [hx])) acc
  exact key ""

lemma jobAssess_all_start_error (jobName : String) (items : List PodInfo)
    (h : ∀ i ∈ items, i.terminatedReason = "StartError") :
    jobAssess jobName items = Outcome.failed := by
  have hs : items.filter (isJobSuccess jobName) = [] := by
    apply List.filter_eq_nil_iff.mpr
    intro i hi
    simp [isJobSuccess_false_of_startError jobName i (h i hi)]
  have hlog : jobLogString jobName items = "" :=
    jobLogString_of_no_success jobName items
      (fun i hi => isJobSuccess_false_of_startError jobName i (h i hi))
  have hpi : ¬ logHasPi "" := by decide
  simp [jobAssess, hs, hlog, hpi]

lemma jobAssess_one_success_with_errors (jobName : String) (items : List PodInfo)
    (hs : (items.filter (isJobSuccess jobName)).length = 1)
    (he : 1 ≤ (items.filter (isJobError jobName)).length) :
    jobAssess jobName items = Outcome.skipped := by
  simp [jobAssess, hs, he]

/-- C1: in the job branch of the assessment, (a) if every listed pod
terminated with reason `"StartError"` — so zero job pods completed — the
assessment fails the test, and (b) if exactly one job pod completed while
at least one errored, the assessment skips the test; it never passes. -/
theorem jobCase_assess_fail_or_skip (tc : TestCase) (env : AssessEnv) (j : Job)
    (hj : tc.job = some j) (hl : env.listErr = false) :
    ((∀ i ∈ env.podItems, i.terminatedReason = "StartError") →
      (assessPhase tc env).2 = Outcome.failed)
    ∧ ((env.podItems.filter (isJobSuccess j.metadata.name)).length = 1 →
       1 ≤ (env.podItems.filter (isJobError j.metadata.name)).length →
      (assessPhase tc env).2 = Outcome.skipped) := by
  constructor
  · intro h
    simp [assessPhase, hl, hj, jobAssess_all_start_error j.metadata.name env.podItems h]
  · intro hs he
    simp [assessPhase, hl, hj, jobAssess_one_success_with_errors j.metadata.name env.podItems hs he]

def jobW : Job := { metadata := { name := "job-pi", ns := "default" } }

def tcJobW : TestCase := withJob (newTestCasewithJob "Job has been created" jobW) jobW

/-- C1 witness: two all-`StartError` pods make the assessment fail; one
`Completed` pod next to a `StartError` pod makes it skip. -/
theorem jobCase_assess_fail_or_skip_witness :
    (assessPhase tcJobW
        { podItems := [{ name := "job-pi-a", labels := [("job-name", "job-pi")],
                         terminatedReason := "StartError" },
                       { name := "job-pi-b", labels := [("job-name", "job-pi")],
                         terminatedReason := "StartError" }] }).2 = Outcome.failed
    ∧ (assessPhase tcJobW
        { podItems := [{ name := "job-pi-a", labels := [("job-name", "job-pi")],
                         terminatedReason := "StartError" },
                       { name := "job-pi-b", labels := [("job-name", "job-pi")],
                         terminatedReason := "Completed", log := "3.14159" }] }).2
        = Outcome.skipped := by
  constructor
  · exact (jobCase_assess_fail_or_skip tcJobW _ jobW rfl rfl).1 (by decide)
  · exact (jobCase_assess_fail_or_skip tcJobW _ jobW rfl rfl).2 (by decide) (by decide)

/-! ## Claims about the harness: wait-timeout asymmetry (C5) -/

/-- C5: both waits are issued with the fixed 300-second
`WAIT_POD_RUNNING_TIMEOUT`; in the non-job case a pod-running wait error
is fatal to the test, while in the job case a job-completion wait error is
only logged and setup completes without failing. -/
theorem wait_timeout_asymmetry (tc : TestCase) (env : SetupEnv)
    (hc : env.newClientErr = false) (h1 : env.createConfigMapErr = false)
    (h2 : env.createSecretErr = false) (h3 : env.createJobErr = false)
    (h4 : env.createPodErr = false) :
    WAIT_POD_RUNNING_TIMEOUT = 300
    ∧ (tc.job = none → env.podWaitErr = true →
        (setupPhase tc env).2 = true
        ∧ Event.waitPodRunning WAIT_POD_RUNNING_TIMEOUT ∈ (setupPhase tc env).1)
    ∧ (∀ j, tc.job = some j → env.jobWaitErr = true →
        (setupPhase tc env).2 = false
        ∧ Event.waitJobCompleted WAIT_POD_RUNNING_TIMEOUT ∈ (setupPhase tc env).1
        ∧ Event.logError ∈ (setupPhase tc env).1) := by
  refine ⟨rfl, ?_, ?_⟩
  · intro hj hw
    simp [setupPhase, hc, h1, h2, h3, h4, hj, hw]
  · intro j hj hw
    simp [setupPhase, hc, h1, h2, h3, h4, hj, hw]

/-- C5 witness: a concrete pod case whose running-wait times out (fatal)
and a concrete job case whose completion-wait times out (only logged). -/
theorem wait_timeout_asymmetry_witness :
    ((setupPhase (newTestCase "PodVM is created" (newNginxPod "default"))
        { podWaitErr := true }).2 = true)
    ∧ ((setupPhase tcJobW { jobWaitErr := true }).2 = false) := by
  constructor
  · exact ((wait_timeout_asymmetry _ _ rfl rfl rfl rfl rfl).2.1 rfl rfl).1
  · exact ((wait_timeout_asymmetry tcJobW _ rfl rfl rfl rfl rfl).2.2 jobW rfl rfl).1

/-! ## Trace characterizations of setup and teardown under error-free
cluster operations (shared by C2, C3, C4) -/

/-- With every cluster create succeeding, setup performs exactly the
conditional creates followed by the branch-appropriate wait (the wait
errors only change fatality, not the operations attempted, except for the
extra log entry of a job-wait error). -/
lemma setupPhase_trace (tc : TestCase) (env : SetupEnv)
    (hc : env.newClientErr = false) (h1 : env.createConfigMapErr = false)
    (h2 : env.createSecretErr = false) (h3 : env.createJobErr = false)
    (h4 : env.createPodErr = false) :
    (setupPhase tc env).1
      = (match tc.configMap with
          | some cm => [Event.createConfigMap cm.metadata.name]
          | none => [])
        ++ (match tc.secret with
          | some s => [Event.createSecret s.metadata.name]
          | none => [])
        ++ (match tc.job with
          | some j => [Event.createJob j.metadata.name]
          | none => [])
        ++ (if tc.job.isNone then [Event.createPod tc.pod.metadata.name] else [])
        ++ (if tc.job.isSome then
              (if env.jobWaitErr then
                [Event.waitJobCompleted WAIT_POD_RUNNING_TIMEOUT, Event.logError]
               else [Event.waitJobCompleted WAIT_POD_RUNNING_TIMEOUT])
            else [])
        ++ (if tc.job.isNone then [Event.waitPodRunning WAIT_POD_RUNNING_TIMEOUT] else []) := by
  simp only [setupPhase, hc, h1, h2, h3, h4, Bool.and_false, Bool.false_eq_true, if_false]
  split <;> simp

/-- With every cluster create succeeding and the pod-running wait not
timing out, setup completes without `t.Fatal`. -/
lemma setupPhase_ok (tc : TestCase) (env : SetupEnv)
    (hc : env.newClientErr = false) (h1 : env.createConfigMapErr = false)
    (h2 : env.createSecretErr = false) (h3 : env.createJobErr = false)
    (h4 : env.createPodErr = false) (h5 : env.podWaitErr = false) :
    (setupPhase tc env).2 = false := by
  simp [setupPhase, hc, h1, h2, h3, h4, h5]

lemma deleteJobPods_trace_shape (jobName : String) (errFn : String → Bool) :
    ∀ items : List PodInfo, ∀ e ∈ (deleteJobPods jobName errFn items).1,
      ∃ nm, e = Event.deleteJobPod nm := by
  intro items
  induction items with
  | nil => simp [deleteJobPods]
  | cons i rest ih =>
      intro e he
      by_cases hl : (lookupLabel i.labels "job-name" == some jobName) = true
      · by_cases herr : errFn i.name = true
        · simp [deleteJobPods, hl, herr] at he
          exact ⟨i.name, he⟩
        · simp [deleteJobPods, hl, herr] at he
          rcases he with he | he
          · exact ⟨i.name, he⟩
          · exact ih e he
      · simp [deleteJobPods, hl] at he
        exact ih e he

lemma deleteJobPods_ok (jobName : String) :
    ∀ items : List PodInfo,
      (deleteJobPods jobName (fun _ => false) items).2 = false := by
  intro items
  induction items with
  | nil => rfl
  | cons i rest ih =>
      by_cases hl : (lookupLabel i.labels "job-name" == some jobName) = true <;>
        simp [deleteJobPods, hl, ih]

/-- With the pod list and every delete succeeding, teardown performs
exactly the conditional deletes: the pod (non-job case), the config map
and secret when present, and the job plus its labelled pods (job case). -/
lemma teardownPhase_trace (tc : TestCase) (env : TeardownEnv)
    (hl : env.listErr = false) (hc : env.newClientErr = false)
    (h1 : env.deletePodErr = false) (h2 : env.deleteConfigMapErr = false)
    (h3 : env.deleteSecretErr = false) (h4 : env.deleteJobErr = false) :
    (teardownPhase tc env).1
      = (if tc.job.isNone then [Event.deletePod tc.pod.metadata.name] else [])
        ++ (match tc.configMap with
          | some cm => [Event.deleteConfigMap cm.metadata.name]
          | none => [])
        ++ (match tc.secret with
          | some s => [Event.deleteSecret s.metadata.name]
          | none => [])
        ++ (match tc.job with
          | some j => Event.deleteJob j.metadata.name
              :: (deleteJobPods j.metadata.name env.deleteJobPodErr env.podItems).1
          | none => []) := by
  simp only [teardownPhase, hl, hc, h1, h2, h3, h4, Bool.and_false, Bool.false_eq_true, if_false]
  split <;> simp_all

/-- With everything in teardown succeeding, teardown completes without
`t.Fatal`. -/
lemma teardownPhase_ok (tc : TestCase) (env : TeardownEnv)
    (hl : env.listErr = false) (hc : env.newClientErr = false)
    (h1 : env.deletePodErr = false) (h2 : env.deleteConfigMapErr = false)
    (h3 : env.deleteSecretErr = false) (h4 : env.deleteJobErr = false)
    (h5 : env.deleteJobPodErr = fun _ => false) :
    (teardownPhase tc env).2 = false := by
  simp only [teardownPhase, hl, hc, h1, h2, h3, h4, h5, Bool.and_false, Bool.false_eq_true,
    if_false]
  split
  · rfl
  · exact deleteJobPods_ok _ env.podItems

lemma deleteConfigMap_not_in_jobPods (n jobName : String) (errFn : String → Bool)
    (items : List PodInfo) :
    Event.deleteConfigMap n ∉ (deleteJobPods jobName errFn items).1 := by
  intro h
  rcases deleteJobPods_trace_shape jobName errFn items _ h with ⟨nm, hnm⟩
  cases hnm

lemma deleteSecret_not_in_jobPods (n jobName : String) (errFn : String → Bool)
    (items : List PodInfo) :
    Event.deleteSecret n ∉ (deleteJobPods jobName errFn items).1 := by
  intro h
  rcases deleteJobPods_trace_shape jobName errFn items _ h with ⟨nm, hnm⟩
  cases hnm

lemma deleteJob_not_in_jobPods (n jobName : String) (errFn : String → Bool)
    (items : List PodInfo) :
    Event.deleteJob n ∉ (deleteJobPods jobName errFn items).1 := by
  intro h
  rcases deleteJobPods_trace_shape jobName errFn items _ h with ⟨nm, hnm⟩
  cases hnm

/-! ## C4: deletes are attempted exactly when the object was created -/

/-- C4: under error-free cluster operations, teardown attempts to delete
the config map / secret / job if and only if the test case carries one —
which is exactly the condition under which setup created it. -/
theorem conditional_create_delete (tc : TestCase) (senv : SetupEnv) (tenv : TeardownEnv)
    (hsc : senv.newClientErr = false) (hs1 : senv.createConfigMapErr = false)
    (hs2 : senv.createSecretErr = false) (hs3 : senv.createJobErr = false)
    (hs4 : senv.createPodErr = false)
    (htl : tenv.listErr = false) (htc : tenv.newClientErr = false)
    (ht1 : tenv.deletePodErr = false) (ht2 : tenv.deleteConfigMapErr = false)
    (ht3 : tenv.deleteSecretErr = false) (ht4 : tenv.deleteJobErr = false) :
    ((∃ n, Event.deleteConfigMap n ∈ (teardownPhase tc tenv).1) ↔ tc.configMap.isSome = true)
    ∧ ((∃ n, Event.createConfigMap n ∈ (setupPhase tc senv).1) ↔ tc.configMap.isSome = true)
    ∧ ((∃ n, Event.deleteSecret n ∈ (teardownPhase tc tenv).1) ↔ tc.secret.isSome = true)
    ∧ ((∃ n, Event.createSecret n ∈ (setupPhase tc senv).1) ↔ tc.secret.isSome = true)
    ∧ ((∃ n, Event.deleteJob n ∈ (teardownPhase tc tenv).1) ↔ tc.job.isSome = true)
    ∧ ((∃ n, Event.createJob n ∈ (setupPhase tc senv).1) ↔ tc.job.isSome = true) := by
  rw [setupPhase_trace tc senv hsc hs1 hs2 hs3 hs4,
    teardownPhase_trace tc tenv htl htc ht1 ht2 ht3 ht4]
  by_cases hw : senv.jobWaitErr = true <;>
    rcases hcm : tc.configMap with _ | cm <;>
      rcases hsec : tc.secret with _ | s <;>
        rcases hjob : tc.job with _ | j <;>
          simp [hw, deleteConfigMap_not_in_jobPods, deleteSecret_not_in_jobPods,
            deleteJob_not_in_jobPods]

def cmW : ConfigMap := newConfigMap "default" "nginx-config" [("example.txt", "Hello, world")]

def secW : Secret :=
  newSecret "default" "nginx-secret" [("password", "password"), ("username", "admin")]

def tcAllW : TestCase :=
  withSecret (withConfigMap (newTestCase "Configmap and secret" (newNginxPod "default")) cmW) secW

/-- C4 witness: for a case carrying a config map and a secret but no job,
the delete-iff-created equivalences instantiated on default (error-free)
environments. -/
theorem conditional_create_delete_witness :
    ((∃ n, Event.deleteConfigMap n ∈ (teardownPhase tcAllW {}).1)
        ↔ tcAllW.configMap.isSome = true)
    ∧ ((∃ n, Event.deleteJob n ∈ (teardownPhase tcAllW {}).1) ↔ tcAllW.job.isSome = true) := by
  have h := conditional_create_delete tcAllW {} {} rfl rfl rfl rfl rfl rfl rfl rfl rfl rfl rfl
  exact ⟨h.1, h.2.2.2.2.1⟩

/-! ## C2: everything setup created, teardown deletes, for any assessment
outcome -/

/-- C2: when setup completes (error-free creates, pod-running wait not
timing out) and teardown's own cluster calls succeed, the executed feature
is setup ++ assessment ++ teardown — the teardown part present whatever
the assessment outcome is, since assessments run as subtests — and every
object setup created (config map, secret, job, pod) has its delete
performed in the teardown part. -/
theorem created_objects_deleted (tc : TestCase) (env : Env)
    (hsc : env.setup.newClientErr = false) (hs1 : env.setup.createConfigMapErr = false)
    (hs2 : env.setup.createSecretErr = false) (hs3 : env.setup.createJobErr = false)
    (hs4 : env.setup.createPodErr = false) (hs5 : env.setup.podWaitErr = false)
    (htl : env.teardown.listErr = false) (htc : env.teardown.newClientErr = false)
    (ht1 : env.teardown.deletePodErr = false) (ht2 : env.teardown.deleteConfigMapErr = false)
    (ht3 : env.teardown.deleteSecretErr = false) (ht4 : env.teardown.deleteJobErr = false) :
    (runFeature tc env).1
      = (setupPhase tc env.setup).1 ++ (assessPhase tc env.assess).1
        ++ (teardownPhase tc env.teardown).1
    ∧ (∀ cm, tc.configMap = some cm →
        Event.createConfigMap cm.metadata.name ∈ (setupPhase tc env.setup).1
        ∧ Event.deleteConfigMap cm.metadata.name ∈ (teardownPhase tc env.teardown).1)
    ∧ (∀ s, tc.secret = some s →
        Event.createSecret s.metadata.name ∈ (setupPhase tc env.setup).1
        ∧ Event.deleteSecret s.metadata.name ∈ (teardownPhase tc env.teardown).1)
    ∧ (∀ j, tc.job = some j →
        Event.createJob j.metadata.name ∈ (setupPhase tc env.setup).1
        ∧ Event.deleteJob j.metadata.name ∈ (teardownPhase tc env.teardown).1)
    ∧ (tc.job = none →
        Event.createPod tc.pod.metadata.name ∈ (setupPhase tc env.setup).1
        ∧ Event.deletePod tc.pod.metadata.name ∈ (teardownPhase tc env.teardown).1) := by
  refine ⟨?_, ?_, ?_, ?_, ?_⟩
  · simp [runFeature, setupPhase_ok tc env.setup hsc hs1 hs2 hs3 hs4 hs5]
  · intro cm hcm
    rw [setupPhase_trace tc env.setup hsc hs1 hs2 hs3 hs4,
      teardownPhase_trace tc env.teardown htl htc ht1 ht2 ht3 ht4]
    simp [hcm]
  · intro s hs
    rw [setupPhase_trace tc env.setup hsc hs1 hs2 hs3 hs4,
      teardownPhase_trace tc env.teardown htl htc ht1 ht2 ht3 ht4]
    simp [hs]
  · intro j hj
    rw [setupPhase_trace tc env.setup hsc hs1 hs2 hs3 hs4,
      teardownPhase_trace tc env.teardown htl htc ht1 ht2 ht3 ht4]
    simp [hj]
  · intro hj
    rw [setupPhase_trace tc env.setup hsc hs1 hs2 hs3 hs4,
      teardownPhase_trace tc env.teardown htl htc ht1 ht2 ht3 ht4]
    simp [hj]

/-- C2 witness: for the config-map-and-secret case on error-free
environments, the created config map's create and delete operations both
appear in the run. -/
theorem created_objects_deleted_witness :
    Event.createConfigMap cmW.metadata.name ∈ (setupPhase tcAllW ({} : Env).setup).1
    ∧ Event.deleteConfigMap cmW.metadata.name ∈ (teardownPhase tcAllW ({} : Env).teardown).1 :=
  (created_objects_deleted tcAllW {} rfl rfl rfl rfl rfl rfl rfl rfl rfl rfl rfl rfl).2.1 cmW rfl

/-! ## C6: non-job verification commands -/

lemma execOnItems_events (ns podName : String) (k : Nat) (c : TestCommand)
    (res : Option String) :
    ∀ (items : List PodInfo) (buf : String),
      ∀ e ∈ (execOnItems ns podName k c res items buf).1,
        e = Event.execCmd k ns podName c.containerName c.command ∨ e = Event.logError := by
  intro items
  induction items with
  | nil => simp [execOnItems]
  | cons i rest ih =>
      intro buf e he
      by_cases hn : (i.name == podName) = true
      · cases res with
        | none =>
            simp [execOnItems, hn] at he
            exact he
        | some out =>
            by_cases hp : c.testCommandStdoutFn (buf ++ out) = true
            · simp [execOnItems, hn, hp] at he
              rcases he with he | he
              · exact Or.inl he
              · exact ih (buf ++ out) e he
            · simp [execOnItems, hn, hp] at he
              exact Or.inl he
      · simp [execOnItems, hn] at he
        exact ih buf e he

lemma cmdLoop_fails_of_cmd_fails (ns podName : String) (items : List PodInfo)
    (env : AssessEnv) :
    ∀ (cmds : List TestCommand) (s : Nat),
      (∃ k, ∃ hk : k < cmds.length,
        (execOnItems ns podName (s + k) (cmds.get ⟨k, hk⟩)
          (env.execRes (s + k)) items "").2 = false) →
      (cmdLoop ns podName items env s cmds).2 = false := by
  intro cmds
  induction cmds with
  | nil =>
      intro s h
      rcases h with ⟨k, hk, _⟩
      exact absurd hk (by simp)
  | cons c rest ih =>
      intro s h
      by_cases h0 : (execOnItems ns podName s c (env.execRes s) items "").2 = true
      · have hrest : (cmdLoop ns podName items env (s + 1) rest).2 = false := by
          apply ih (s + 1)
          rcases h with ⟨k, hk, hf⟩
          cases k with
          | zero =>
              exfalso
              rw [Nat.add_zero] at hf
              have hf2 : (execOnItems ns podName s c (env.execRes s) items "").2 = false := hf
              rw [h0] at hf2
              cases hf2
          | succ m =>
              refine ⟨m, by simpa using Nat.lt_of_succ_lt_succ (by simpa using hk), ?_⟩
              have harith : s + (m + 1) = s + 1 + m := by omega
              rw [harith] at hf
              exact hf
        simp [cmdLoop, h0, hrest]
      · have h0f : (execOnItems ns podName s c (env.execRes s) items "").2 = false := by
          simpa using h0
        simp [cmdLoop, h0f]

lemma cmdLoop_exec_idx_le (ns podName : String) (items : List PodInfo)
    (env : AssessEnv) :
    ∀ (cmds : List TestCommand) (s k : Nat) (hk : k < cmds.length),
      (execOnItems ns podName (s + k) (cmds.get ⟨k, hk⟩)
        (env.execRes (s + k)) items "").2 = false →
      ∀ k2 ns2 pn2 cn2 argv,
        Event.execCmd k2 ns2 pn2 cn2 argv ∈ (cmdLoop ns podName items env s cmds).1 →
        k2 ≤ s + k := by
  intro cmds
  induction cmds with
  | nil =>
      intro s k hk
      exact absurd hk (by simp)
  | cons c rest ih =>
      intro s k hk hf k2 ns2 pn2 cn2 argv hmem
      by_cases h0 : (execOnItems ns podName s c (env.execRes s) items "").2 = true
      · rw [cmdLoop] at hmem
        simp only [h0, if_true] at hmem
        rw [List.mem_append] at hmem
        cases k with
        | zero =>
            exfalso
            rw [Nat.add_zero] at hf
            have hf2 : (execOnItems ns podName s c (env.execRes s) items "").2 = false := hf
            rw [h0] at hf2
            cases hf2
        | succ m =>
            have harith : s + (m + 1) = s + 1 + m := by omega
            rcases hmem with hmem | hmem
            · rcases execOnItems_events ns podName s c (env.execRes s) items "" _ hmem
                with he | he
              · cases he
                omega
              · cases he
            · have hm : m < rest.length := by simpa using Nat.lt_of_succ_lt_succ (by simpa using hk)
              have hf2 : (execOnItems ns podName (s + 1 + m) (rest.get ⟨m, hm⟩)
                  (env.execRes (s + 1 + m)) items "").2 = false := by
                rw [← harith]
                exact hf
              have := ih (s + 1) m hm hf2 k2 ns2 pn2 cn2 argv hmem
              omega
      · rw [cmdLoop] at hmem
        simp only [h0, if_false, Bool.false_eq_true] at hmem
        rcases execOnItems_events ns podName s c (env.execRes s) items "" _ hmem
          with he | he
        · cases he
          omega
        · cases he

lemma cmdLoop_exec_targets (ns podName : String) (items : List PodInfo)
    (env : AssessEnv) :
    ∀ (cmds : List TestCommand) (s : Nat) (k2 : Nat) (ns2 pn2 cn2 : String)
      (argv : List String),
      Event.execCmd k2 ns2 pn2 cn2 argv ∈ (cmdLoop ns podName items env s cmds).1 →
      ns2 = ns ∧ pn2 = podName ∧ s ≤ k2
      ∧ ∃ hlt : k2 - s < cmds.length,
          cn2 = (cmds.get ⟨k2 - s, hlt⟩).containerName
          ∧ argv = (cmds.get ⟨k2 - s, hlt⟩).command := by
  intro cmds
  induction cmds with
  | nil =>
      intro s k2 ns2 pn2 cn2 argv hmem
      simp [cmdLoop] at hmem
  | cons c rest ih =>
      intro s k2 ns2 pn2 cn2 argv hmem
      rw [cmdLoop] at hmem
      by_cases h0 : (execOnItems ns podName s c (env.execRes s) items "").2 = true
      · simp only [h0, if_true] at hmem
        rw [List.mem_append] at hmem
        rcases hmem with hmem | hmem
        · rcases execOnItems_events ns podName s c (env.execRes s) items "" _ hmem
            with he | he
          · cases he
            refine ⟨rfl, rfl, Nat.le_refl s, ?_⟩
            have hz : s - s = 0 := by omega
            refine ⟨by simp [hz], by simp [hz], by simp [hz]⟩
          · cases he
        · rcases ih (s + 1) k2 ns2 pn2 cn2 argv hmem with ⟨hns, hpn, hle, hlt, hcn, hargv⟩
          have hlt2 : k2 - s < (c :: rest).length := by
            simp only [List.length_cons]
            omega
          have hlt3 : (k2 - (s + 1)) + 1 < (c :: rest).length := by
            simp only [List.length_cons]
            omega
          have hgets : (c :: rest).get ⟨k2 - s, hlt2⟩ = rest.get ⟨k2 - (s + 1), hlt⟩ := by
            have hfin : (⟨k2 - s, hlt2⟩ : Fin (c :: rest).length)
                = ⟨(k2 - (s + 1)) + 1, hlt3⟩ := by
              apply Fin.ext
              show k2 - s = (k2 - (s + 1)) + 1
              omega
            rw [hfin]
            rfl
          exact ⟨hns, hpn, by omega, hlt2,
            by rw [hgets]; exact hcn, by rw [hgets]; exact hargv⟩
      · simp only [h0, if_false, Bool.false_eq_true] at hmem
        rcases execOnItems_events ns podName s c (env.execRes s) items "" _ hmem
          with he | he
        · cases he
          refine ⟨rfl, rfl, Nat.le_refl s, ?_⟩
          have hz : s - s = 0 := by omega
          refine ⟨by simp [hz], by simp [hz], by simp [hz]⟩
        · cases he

/-- C6: in the non-job assessment, every `ExecInPod` call targets the test
case's namespace and pod name and carries exactly the `k`-th test
command's container name and argv (execution only happens against list
items matching the pod's name); and if the `k`-th command's run fails —
an execution error or its stdout predicate returning false — the
assessment fails and no command after index `k` is ever executed. -/
theorem nonjob_commands (tc : TestCase) (env : AssessEnv)
    (hj : tc.job = none) (hl : env.listErr = false) (hv : env.hasPodVMOk = true)
    (k : Nat) (hk : k < tc.testCommands.length)
    (hfail : (execOnItems tc.pod.metadata.ns tc.pod.metadata.name k
        (tc.testCommands.get ⟨k, hk⟩) (env.execRes k) env.podItems "").2 = false) :
    (assessPhase tc env).2 = Outcome.failed
    ∧ (∀ k2 ns2 pn2 cn2 argv,
        Event.execCmd k2 ns2 pn2 cn2 argv ∈ (assessPhase tc env).1 →
        ns2 = tc.pod.metadata.ns ∧ pn2 = tc.pod.metadata.name
        ∧ ∃ hlt : k2 < tc.testCommands.length,
            cn2 = (tc.testCommands.get ⟨k2, hlt⟩).containerName
            ∧ argv = (tc.testCommands.get ⟨k2, hlt⟩).command)
    ∧ (∀ k2 ns2 pn2 cn2 argv,
        Event.execCmd k2 ns2 pn2 cn2 argv ∈ (assessPhase tc env).1 → k2 ≤ k) := by
  have hloop : (cmdLoop tc.pod.metadata.ns tc.pod.metadata.name env.podItems env
      0 tc.testCommands).2 = false := by
    apply cmdLoop_fails_of_cmd_fails
    refine ⟨k, hk, ?_⟩
    rw [Nat.zero_add]
    exact hfail
  have htrace : (assessPhase tc env).1
      = Event.hasPodVM tc.pod.metadata.name
        :: (cmdLoop tc.pod.metadata.ns tc.pod.metadata.name env.podItems env
          0 tc.testCommands).1 := by
    simp [assessPhase, hl, hj, hv]
  refine ⟨?_, ?_, ?_⟩
  · simp [assessPhase, hl, hj, hv, hloop]
  · intro k2 ns2 pn2 cn2 argv hmem
    rw [htrace] at hmem
    rcases List.mem_cons.mp hmem with he | he
    · cases he
    · rcases cmdLoop_exec_targets tc.pod.metadata.ns tc.pod.metadata.name env.podItems env
        tc.testCommands 0 k2 ns2 pn2 cn2 argv he with ⟨hns, hpn, _, hlt, hcn, hargv⟩
      exact ⟨hns, hpn, hlt, hcn, hargv⟩
  · intro k2 ns2 pn2 cn2 argv hmem
    rw [htrace] at hmem
    rcases List.mem_cons.mp hmem with he | he
    · cases he
    · have := cmdLoop_exec_idx_le tc.pod.metadata.ns tc.pod.metadata.name env.podItems env
        tc.testCommands 0 k hk (by rw [Nat.zero_add]; exact hfail) k2 ns2 pn2 cn2 argv he
      omega

def cmdW : TestCommand :=
  { command := ["cat", "/etc/config/example.txt"],
    testCommandStdoutFn := fun stdout => stdout == "Hello, world",
    containerName := "nginx-configmap" }

def tcCmdW : TestCase :=
  withTestCommands
    (withConfigMap (newTestCase "Configmap is created and contains data"
      (newNginxPodWithConfigMap "default" "nginx-config")) cmW)
    [cmdW]

def envCmdW : AssessEnv :=
  { podItems := [{ name := "nginx-configmap-pod" }],
    execRes := fun _ => some "garbage" }

/-- C6 witness: a config-map case whose single `cat` command produces the
wrong stdout — the predicate rejects it and the assessment fails. -/
theorem nonjob_commands_witness : (assessPhase tcCmdW envCmdW).2 = Outcome.failed :=
  (nonjob_commands tcCmdW envCmdW rfl rfl rfl 0 (by decide) (by decide)).1

/-! ## C3: the running-state wait precedes every verification command -/

def isExecEvent : Event → Bool
  | .execCmd _ _ _ _ _ => true
  | _ => false

set_option maxHeartbeats 1000000 in
lemma setupPhase_no_exec (tc : TestCase) (env : SetupEnv) :
    ∀ e ∈ (setupPhase tc env).1, isExecEvent e = false := by
  intro e he
  cases e
  case execCmd k ns2 pn cn argv =>
    exfalso
    rcases hcm : tc.configMap with _ | cm <;>
      rcases hsec : tc.secret with _ | s <;>
        rcases hjob : tc.job with _ | j <;>
          (simp only [setupPhase, hcm, hsec, hjob, apply_ite Prod.fst] at he
           repeat' (split at he)
           all_goals simp at he)
  all_goals rfl

lemma deleteJobPods_no_exec (jobName : String) (errFn : String → Bool)
    (items : List PodInfo) :
    ∀ e ∈ (deleteJobPods jobName errFn items).1, isExecEvent e = false := by
  intro e he
  rcases deleteJobPods_trace_shape jobName errFn items e he with ⟨nm, hnm⟩
  rw [hnm]
  rfl

lemma execCmd_not_in_deleteJobPods (k : Nat) (ns2 pn cn : String) (argv : List String)
    (jobName : String) (errFn : String → Bool) (items : List PodInfo) :
    Event.execCmd k ns2 pn cn argv ∉ (deleteJobPods jobName errFn items).1 := by
  intro h
  rcases deleteJobPods_trace_shape jobName errFn items _ h with ⟨nm, hnm⟩
  cases hnm

set_option maxHeartbeats 1000000 in
lemma teardownPhase_no_exec (tc : TestCase) (env : TeardownEnv) :
    ∀ e ∈ (teardownPhase tc env).1, isExecEvent e = false := by
  intro e he
  cases e
  case execCmd k ns2 pn cn argv =>
    exfalso
    rcases hcm : tc.configMap with _ | cm <;>
      rcases hsec : tc.secret with _ | s <;>
        rcases hjob : tc.job with _ | j <;>
          (simp only [teardownPhase, hcm, hsec, hjob, apply_ite Prod.fst] at he
           repeat' (split at he)
           all_goals simp [execCmd_not_in_deleteJobPods] at he)
  all_goals rfl

/-- In a list of the form `a ++ w :: b` where neither the elements of `a`
nor `w` are exec events, any exec event sits at an index strictly after
the index of `w`. -/
lemma exec_after_marker (w : Event) (hw : isExecEvent w = false) :
    ∀ (a b : List Event), (∀ e ∈ a, isExecEvent e = false) →
      ∀ (j : Nat) (ev : Event), (a ++ w :: b)[j]? = some ev → isExecEvent ev = true →
        a.length < j ∧ (a ++ w :: b)[a.length]? = some w := by
  intro a
  induction a with
  | nil =>
      intro b _ j ev hj hex
      cases j with
      | zero =>
          exfalso
          simp only [List.nil_append, List.getElem?_cons_zero, Option.some.injEq] at hj
          rw [← hj] at hex
          rw [hw] at hex
          cases hex
      | succ m =>
          exact ⟨Nat.succ_pos m, by simp⟩
  | cons x a ih =>
      intro b ha j ev hj hex
      cases j with
      | zero =>
          exfalso
          simp only [List.cons_append, List.getElem?_cons_zero, Option.some.injEq] at hj
          rw [← hj] at hex
          rw [ha x (by simp)] at hex
          cases hex
      | succ m =>
          have hj2 : (a ++ w :: b)[m]? = some ev := by
            simpa using hj
          rcases ih b (fun e he => ha e (by simp [he])) m ev hj2 hex with ⟨hlt, hget⟩
          refine ⟨by simpa using Nat.succ_lt_succ hlt, ?_⟩
          simpa using hget

/-- A non-fatal setup run either returns from the final branch with the
wait as the last operations, or was fatal. -/
lemma setupPhase_shape (tc : TestCase) (env : SetupEnv) :
    (setupPhase tc env).2 = true
    ∨ ∃ s2, (setupPhase tc env).1
        = s2 ++ (if tc.job.isNone then [Event.waitPodRunning WAIT_POD_RUNNING_TIMEOUT] else []) := by
  simp only [setupPhase, apply_ite Prod.fst, apply_ite Prod.snd]
  repeat' split
  all_goals
    first
      | exact Or.inl rfl
      | exact Or.inr ⟨_, rfl⟩

/-- C3: in a non-job feature run, every `ExecInPod` operation is preceded,
strictly earlier in the run's operation sequence, by the wait that asserts
the pod reached the running state — the wait happens during setup, the
commands during the later assessment. -/
theorem running_wait_precedes_commands (tc : TestCase) (env : Env)
    (hj : tc.job = none) (j : Nat) (ev : Event)
    (hev : (runFeature tc env).1[j]? = some ev) (hex : isExecEvent ev = true) :
    ∃ i, i < j
      ∧ (runFeature tc env).1[i]? = some (Event.waitPodRunning WAIT_POD_RUNNING_TIMEOUT) := by
  by_cases hfatal : (setupPhase tc env.setup).2 = true
  · exfalso
    have htr : (runFeature tc env).1 = (setupPhase tc env.setup).1 := by
      simp [runFeature, hfatal]
    rw [htr] at hev
    have hmem : ev ∈ (setupPhase tc env.setup).1 := by
      rcases List.getElem?_eq_some_iff.mp hev with ⟨hlen, hget⟩
      rw [← hget]
      exact List.getElem_mem hlen
    rw [setupPhase_no_exec tc env.setup ev hmem] at hex
    cases hex
  · rcases setupPhase_shape tc env.setup with hsh | ⟨s2, hs2⟩
    · exact absurd hsh hfatal
    · rw [hj] at hs2
      simp only [Option.isNone_none, if_true] at hs2
      have hfatal2 : (setupPhase tc env.setup).2 = false := by
        simpa using hfatal
      have htr : (runFeature tc env).1
          = s2 ++ Event.waitPodRunning WAIT_POD_RUNNING_TIMEOUT
              :: ((assessPhase tc env.assess).1 ++ (teardownPhase tc env.teardown).1) := by
        simp [runFeature, hfatal2, hs2]
      have hs2sub : ∀ e ∈ s2, isExecEvent e = false := by
        intro e he
        apply setupPhase_no_exec tc env.setup e
        rw [hs2]
        exact List.mem_append_left _ he
      rw [htr] at hev
      rcases exec_after_marker (Event.waitPodRunning WAIT_POD_RUNNING_TIMEOUT) rfl s2
        ((assessPhase tc env.assess).1 ++ (teardownPhase tc env.teardown).1) hs2sub
        j ev hev hex with ⟨hlt, hget⟩
      refine ⟨s2.length, hlt, ?_⟩
      rw [htr]
      exact hget

def envRunW : Env :=
  { assess := { podItems := [{ name := "nginx-configmap-pod" }],
                execRes := fun _ => some "Hello, world" } }

/-- C3 witness: in the concrete config-map run, the exec operation sits at
index 4 of the run and the running-state wait indeed occurs strictly
earlier. -/
theorem running_wait_precedes_commands_witness :
    ∃ i, i < 4
      ∧ (runFeature tcCmdW envRunW).1[i]?
          = some (Event.waitPodRunning WAIT_POD_RUNNING_TIMEOUT) :=
  running_wait_precedes_commands tcCmdW envRunW rfl 4
    (Event.execCmd 0 "default" "nginx-configmap-pod" "nginx-configmap"
      ["cat", "/etc/config/example.txt"])
    (by decide) rfl

end CloudAPIAdaptor
